import Mathlib

/-!
Verification of the Anime_Recommender pipeline (data loader, recommender
orchestration, pipeline driver) against its natural-language specification.

The Python source is shallowly embedded: a pandas DataFrame becomes a list of
rows of optional string cells (`none` models a null/NaN cell), exceptions
become `Except`, and the external collaborators (retriever, LLM) become
explicit function parameters.
-/

namespace AnimeRec

/-- A pandas DataFrame as read from a CSV: a list of column names and a list
of rows, each row a list of cells aligned with the columns. A `none` cell
models a null/NaN value. -/
structure DataFrame where
  columns : List String
  rows : List (List (Option String))
deriving Repr, DecidableEq

/-- Rectangularity: every row has exactly one cell per column
(pandas guarantees this shape after `read_csv`). -/
def DataFrame.Wf (df : DataFrame) : Prop :=
  ∀ r ∈ df.rows, r.length = df.columns.length

instance (df : DataFrame) : Decidable df.Wf :=
  inferInstanceAs (Decidable (∀ r ∈ df.rows, r.length = df.columns.length))

/-- A row contains a null cell (`df.dropna()` removes such rows). -/
def rowHasNull (r : List (Option String)) : Bool :=
  r.any (fun c => c.isNone)

/-- Embeds `df.dropna()`: keep exactly the rows with no null cell. -/
def dropna (rows : List (List (Option String))) : List (List (Option String)) :=
  rows.filter (fun r => !rowHasNull r)

/-- Cell of a row at a named column, `none` if the column is absent or the
cell is null. -/
def getField (cols : List String) (r : List (Option String)) (c : String) :
    Option String :=
  match cols.indexOf? c with
  | some i => r.getD i none
  | none => none

/-- The set `required_columns` of `data_loader.py` (Name, Genres,
sypnopsis), in the literal order of the source. -/
def requiredColumns : List String := ["Name", "Genres", "sypnopsis"]

/-- The per-row derivation of `combined_info` in `load_and_process`:
`"Title: " + Name + "..Overview: " + sypnopsis + "Genres : " + Genres`. -/
def combinedInfo (name sypnopsis genres : String) : String :=
  "Title: " ++ name ++ "..Overview: " ++ sypnopsis ++ "Genres : " ++ genres

/-- The `combined_info` of one surviving row, reading the three fields
by column name (a missing cell contributes the empty string; after the missing-column
check and `dropna` on a rectangular frame this never happens). -/
def deriveRow (cols : List String) (r : List (Option String)) : String :=
  combinedInfo ((getField cols r "Name").getD "")
    ((getField cols r "sypnopsis").getD "")
    ((getField cols r "Genres").getD "")

/-- The error raised by `load_and_process`:
`ValueError(f"Missing columns {missing} in CSV file")`, carrying the set of
required columns absent from the frame. -/
inductive LoadError where
  | missingColumns (missing : List String)
deriving Repr, DecidableEq

/-- The successful outcome of `load_and_process`: the content of the
destination CSV written by `df[['combined_info']].to_csv(...)` together with
the arguments of that write and the method's return value. -/
structure CsvWrite where
  outColumns : List String
  outRows : List String
  writeIndex : Bool
  writeEncoding : String
  returnedPath : String
deriving Repr, DecidableEq

/-- Embeds `AnimeDataLoader.load_and_process` from `data_loader.py`:
read the source frame, drop null rows, validate the required columns,
derive `combined_info` per row, write only that column to the destination
CSV (UTF-8, no index) and return the destination path. -/
def load_and_process (original : DataFrame) (processed_csv : String) :
    Except LoadError CsvWrite :=
  let df : DataFrame := { original with rows := dropna original.rows }
  let missing := requiredColumns.filter (fun c => ¬ c ∈ df.columns)
  if missing ≠ [] then
    .error (.missingColumns missing)
  else
    .ok { outColumns := ["combined_info"]
          outRows := df.rows.map (deriveRow df.columns)
          writeIndex := false
          writeEncoding := "utf-8"
          returnedPath := processed_csv }

/-! ## Recommender (`recommender.py`) -/

/-- A langchain document as seen by the recommender: only its
`page_content` text is used. -/
structure Document where
  page_content : String
deriving Repr, DecidableEq

/-- An LLM response; the recommender returns its `content` field. -/
structure LLMResponse where
  content : String
deriving Repr, DecidableEq

/-- The `ChatGroq` client as constructed in `AnimeRecommender.__init__`:
`ChatGroq(model=model_name, api_key=api_key, temperature=0)`. The behaviour
of the hosted model is the opaque function `invoke`. -/
structure ChatGroq where
  model : String
  api_key : String
  temperature : Nat
  invoke : String → LLMResponse

/-- Modelled from the spec: `src/prompt_template.py` (`get_anime_prompt`) is
not among the source files; the spec describes it as "a fixed text pattern
with placeholders (context, question) filled in before submission to a
language model". The fixed surrounding text is kept abstract as three
constants. -/
structure PromptTemplate where
  before : String
  between : String
  after : String
deriving Repr, DecidableEq

/-- Filling the fixed template with `{context, question}`
(`self.prompt.format(context=context, question=query)`). -/
def PromptTemplate.format (p : PromptTemplate) (context question : String) :
    String :=
  p.before ++ context ++ p.between ++ question ++ p.after

/-- The state of an `AnimeRecommender`: the retriever capability, the LLM
client and the prompt template, as stored by `__init__`. -/
structure AnimeRecommender where
  retriever : String → List Document
  llm : ChatGroq
  prompt : PromptTemplate

/-- Embeds `AnimeRecommender.__init__`: stores the retriever, constructs the
`ChatGroq` client with the given model name and API key at temperature 0,
and stores the prompt template. -/
def AnimeRecommender.mk_init (retriever : String → List Document)
    (api_key model_name : String) (behaviour : String → LLMResponse)
    (prompt : PromptTemplate) : AnimeRecommender :=
  { retriever := retriever
    llm := { model := model_name, api_key := api_key, temperature := 0
             invoke := behaviour }
    prompt := prompt }

/-- Step 2 of `get_recommendations`:
`"\n".join([doc.page_content for doc in retrieved_docs])`. -/
def joinContext (docs : List Document) : String :=
  String.intercalate "\n" (docs.map Document.page_content)

/-- The value returned by `get_recommendations` paired with the trace of
prompts on which `self.llm.invoke` was called during the run. -/
structure RecOutcome where
  returned : String
  llmCalls : List String
deriving Repr, DecidableEq

/-- Embeds `AnimeRecommender.get_recommendations`: retrieve documents for the
query, join their text with newlines into a context, format the prompt with
context and question, invoke the LLM once on it, return the response's
`content`. -/
def AnimeRecommender.get_recommendations (self : AnimeRecommender)
    (query : String) : RecOutcome :=
  let retrieved_docs := self.retriever query
  let context := joinContext retrieved_docs
  let prompt_input := self.prompt.format context query
  let result := self.llm.invoke prompt_input
  { returned := result.content, llmCalls := [prompt_input] }

/-! ## Pipeline driver (`pipeline/build_pipleline.py`) -/

/-- Modelled from the spec: `utils/custom_exception.py` (`CustomException`)
is not among the source files; the spec describes it as "a domain-specific
error type carrying the original failure". It holds the driver's message and
the original exception as cause. -/
structure CustomException where
  message : String
  cause : String
deriving Repr, DecidableEq

/-- The driver's collaborators. `loadAndProcess` is the
`AnimeDataLoader.load_and_process` call (returning the processed path or
raising), and `buildVectorStore` is `VectorStoreBuilder.build_and_save_vectorstore`
(modelled from the spec: `src/vector_store.py` is not among the source
files; the spec says it builds and persists the index, propagating the
external library's errors). Exceptions are `Except.error` with the
exception's string rendering. -/
structure PipelineDeps where
  loadAndProcess : Except String String
  buildVectorStore : String → Except String Unit

/-- Embeds `main` from `build_pipleline.py`: run the loader then the vector-store
builder inside one `try`; on any exception log
`f"failed to execute pipeline {str(e)}"` and raise
`CustomException("Error during pipeline initialization", e)`. Returns the
log lines emitted and the outcome. -/
def pipelineMain (d : PipelineDeps) : List String × Except CustomException Unit :=
  match d.loadAndProcess with
  | .error e =>
      (["Starting to build pipeline", "failed to execute pipeline " ++ e],
       .error ⟨"Error during pipeline initialization", e⟩)
  | .ok processed_csv =>
      match d.buildVectorStore processed_csv with
      | .error e =>
          (["Starting to build pipeline", "Data loaded and processed successfully",
            "failed to execute pipeline " ++ e],
           .error ⟨"Error during pipeline initialization", e⟩)
      | .ok _ =>
          (["Starting to build pipeline", "Data loaded and processed successfully",
            "Vector store built successfully...", "Pipeline built successfully"],
           .ok ())

/-! ## Concrete fixtures and helper lemmas -/

/-- Re-reading a processed CSV as a fresh source frame: one column per
written column, one single-cell row per written `combined_info` value. -/
def processedAsDataFrame (out : CsvWrite) : DataFrame :=
  { columns := out.outColumns
    rows := out.outRows.map (fun s => [some s]) }

/-- The source frame of the spec's end-to-end example, plus one row with a
null `Genres` cell. -/
def dfNaruto : DataFrame :=
  { columns := ["Name", "Genres", "sypnopsis"]
    rows := [[some "Naruto", some "Action, Adventure", some "A ninja\x27s journey."],
             [some "X", none, some "Y"]] }

/-- The destination content `load_and_process` produces for `dfNaruto`. -/
def outNaruto : CsvWrite :=
  { outColumns := ["combined_info"]
    outRows := ["Title: Naruto..Overview: A ninja\x27s journey.Genres : Action, Adventure"]
    writeIndex := false
    writeEncoding := "utf-8"
    returnedPath := "anime_updated.csv" }

theorem load_ok_eq (df : DataFrame) (p : String) (out : CsvWrite)
    (hok : load_and_process df p = .ok out) :
    out = { outColumns := ["combined_info"]
            outRows := (dropna df.rows).map (deriveRow df.columns)
            writeIndex := false
            writeEncoding := "utf-8"
            returnedPath := p } := by
  simp only [load_and_process] at hok
  split at hok
  · cases hok
  · injection hok with h
    exact h.symm

/-! ## Claim theorems: data loader -/

/-- C1: for every accepted input frame, the value written at each output
position is exactly
`"Title: " + Name + "..Overview: " + sypnopsis + "Genres : " + Genres`
of the corresponding surviving row's fields. -/
theorem load_and_process_row_concat (df : DataFrame) (p : String)
    (out : CsvWrite) (hok : load_and_process df p = .ok out)
    (i : Nat) (name syn gen : String)
    (hn : getField df.columns ((dropna df.rows).getD i []) "Name" = some name)
    (hs : getField df.columns ((dropna df.rows).getD i []) "sypnopsis" = some syn)
    (hg : getField df.columns ((dropna df.rows).getD i []) "Genres" = some gen)
    (hi : i < out.outRows.length) :
    out.outRows.getD i "" =
      "Title: " ++ name ++ "..Overview: " ++ syn ++ "Genres : " ++ gen := by
  obtain rfl := load_ok_eq df p out hok
  have hi' : i < (dropna df.rows).length := by
    simpa using hi
  have hrow : (dropna df.rows).getD i [] = (dropna df.rows).get ⟨i, hi'⟩ := by
    rw [List.getD_eq_getElem?_getD, List.getElem?_eq_getElem hi']
    rfl
  rw [List.getD_eq_getElem?_getD, List.getElem?_map, List.getElem?_eq_getElem hi']
  rw [hrow] at hn hs hg
  simp only [Option.map_some', Option.getD_some, deriveRow, combinedInfo, List.get_eq_getElem]
  rw [List.get_eq_getElem] at hn hs hg
  rw [hn, hs, hg]
  simp only [Option.getD_some]

/-- C1 witness: the end-to-end example row yields exactly the example
string. -/
theorem load_and_process_row_concat_witness :
    load_and_process dfNaruto "anime_updated.csv" = .ok outNaruto ∧
    outNaruto.outRows.getD 0 "" =
      "Title: " ++ "Naruto" ++ "..Overview: " ++ "A ninja\x27s journey." ++
        "Genres : " ++ "Action, Adventure" :=
  ⟨rfl,
   load_and_process_row_concat dfNaruto "anime_updated.csv" outNaruto rfl
     0 "Naruto" "A ninja\x27s journey." "Action, Adventure"
     (by decide) (by decide) (by decide) (by decide)⟩

/-- C2: after null-row removal the loader fails with a `ValueError` naming
exactly the set of required columns missing from the frame, and succeeds
when all three are present. -/
theorem load_and_process_validates_columns (df : DataFrame) (p : String)
    (missing : List String)
    (hm : missing = requiredColumns.filter (fun c => ¬ c ∈ df.columns)) :
    (missing ≠ [] → load_and_process df p = .error (.missingColumns missing)) ∧
    (missing = [] → ∃ out, load_and_process df p = .ok out) ∧
    (∀ c, c ∈ missing ↔ (c ∈ requiredColumns ∧ ¬ c ∈ df.columns)) := by
  subst hm
  refine ⟨?_, ?_, ?_⟩
  · intro hne
    simp only [load_and_process]
    rw [if_pos hne]
  · intro hval
    simp only [load_and_process]
    rw [if_neg (fun h => h hval)]
    exact ⟨_, rfl⟩
  · intro c
    simp [List.mem_filter]

/-- C2 witness: a frame lacking `sypnopsis` is rejected naming exactly that
column; the Naruto frame is accepted. -/
theorem load_and_process_validates_columns_witness :
    load_and_process ⟨["Name", "Genres"], []⟩ "p.csv" =
      .error (.missingColumns ["sypnopsis"]) ∧
    ("sypnopsis" ∈ (["sypnopsis"] : List String) ∧
      ∃ out, load_and_process dfNaruto "anime_updated.csv" = .ok out) :=
  ⟨(load_and_process_validates_columns ⟨["Name", "Genres"], []⟩ "p.csv"
      ["sypnopsis"] (by decide)).1 (by decide),
   by decide,
   (load_and_process_validates_columns dfNaruto "anime_updated.csv" []
      (by decide)).2.1 rfl⟩

theorem dropna_len_le (rows : List (List (Option String))) :
    (dropna rows).length ≤ rows.length :=
  List.length_filter_le _ rows

/-- C3: rows with a null cell are absent from the surviving set, the output
row count never exceeds the input row count, and the counts agree exactly
when no input row has a null. -/
theorem load_and_process_drops_null_rows (df : DataFrame) (p : String)
    (out : CsvWrite) (hok : load_and_process df p = .ok out) :
    (∀ r ∈ df.rows, rowHasNull r = true → ¬ r ∈ dropna df.rows) ∧
    out.outRows.length ≤ df.rows.length ∧
    (out.outRows.length = df.rows.length ↔
      ∀ r ∈ df.rows, rowHasNull r = false) := by
  obtain rfl := load_ok_eq df p out hok
  refine ⟨?_, ?_, ?_⟩
  · intro r hr hnull hmem
    rw [dropna, List.mem_filter] at hmem
    simp [hnull] at hmem
  · simp only [List.length_map]
    exact dropna_len_le df.rows
  · simp only [List.length_map, dropna]
    rw [List.filter_length_eq_length]
    simp

/-- C3 witness: on the Naruto fixture the null row is gone, one of two rows
survives. -/
theorem load_and_process_drops_null_rows_witness :
    ¬ [some "X", none, some "Y"] ∈ dropna dfNaruto.rows ∧
    outNaruto.outRows.length ≤ dfNaruto.rows.length ∧
    ¬ outNaruto.outRows.length = dfNaruto.rows.length :=
  ⟨(load_and_process_drops_null_rows dfNaruto "anime_updated.csv" outNaruto
      rfl).1 [some "X", none, some "Y"] (by decide) (by decide),
   (load_and_process_drops_null_rows dfNaruto "anime_updated.csv" outNaruto
      rfl).2.1,
   fun h => by
     have := ((load_and_process_drops_null_rows dfNaruto "anime_updated.csv"
        outNaruto rfl).2.2.mp h) [some "X", none, some "Y"] (by decide)
     simp [rowHasNull] at this⟩

theorem combined_only_missing :
    requiredColumns.filter (fun c => ¬ c ∈ (["combined_info"] : List String)) =
      ["Name", "Genres", "sypnopsis"] := by decide

theorem combined_only_missing_ne :
    requiredColumns.filter (fun c => ¬ c ∈ (["combined_info"] : List String)) ≠
      [] := by decide

theorem load_one_column_fails (df : DataFrame) (p : String)
    (hc : df.columns = ["combined_info"]) :
    load_and_process df p =
      .error (.missingColumns ["Name", "Genres", "sypnopsis"]) := by
  simp only [load_and_process, hc]
  split
  · rw [combined_only_missing]
  · case isFalse h => exact absurd combined_only_missing_ne h

/-- C7: re-running the loader on its own processed output fails with the
missing-column error naming exactly {Name, Genres, sypnopsis}. -/
theorem load_and_process_round_trip (df : DataFrame) (p p₂ : String)
    (out : CsvWrite) (hok : load_and_process df p = .ok out) :
    load_and_process (processedAsDataFrame out) p₂ =
      .error (.missingColumns ["Name", "Genres", "sypnopsis"]) := by
  apply load_one_column_fails
  obtain rfl := load_ok_eq df p out hok
  rfl

/-- C7 witness: the Naruto output re-read as a source is rejected with all
three required columns missing. -/
theorem load_and_process_round_trip_witness :
    load_and_process (processedAsDataFrame outNaruto) "p2.csv" =
      .error (.missingColumns ["Name", "Genres", "sypnopsis"]) :=
  load_and_process_round_trip dfNaruto "anime_updated.csv" "p2.csv" outNaruto rfl

/-- C8: a successful run writes only the `combined_info` column, with no
row index, UTF-8 encoded, and returns the destination path supplied at
construction. -/
theorem load_and_process_output_schema (df : DataFrame) (p : String)
    (out : CsvWrite) (hok : load_and_process df p = .ok out) :
    out.outColumns = ["combined_info"] ∧ out.writeIndex = false ∧
    out.writeEncoding = "utf-8" ∧ out.returnedPath = p := by
  obtain rfl := load_ok_eq df p out hok
  exact ⟨rfl, rfl, rfl, rfl⟩

/-- C8 witness: the schema facts hold on the Naruto fixture. -/
theorem load_and_process_output_schema_witness :
    outNaruto.outColumns = ["combined_info"] ∧ outNaruto.writeIndex = false ∧
    outNaruto.writeEncoding = "utf-8" ∧
    outNaruto.returnedPath = "anime_updated.csv" :=
  load_and_process_output_schema dfNaruto "anime_updated.csv" outNaruto rfl

/-- C10: the output values are the derivations of the surviving rows in
their original input order, the surviving rows forming a sublist (order
preserved, no duplication) of the input rows. -/
theorem load_and_process_preserves_order (df : DataFrame) (p : String)
    (out : CsvWrite) (hok : load_and_process df p = .ok out) :
    out.outRows = (dropna df.rows).map (deriveRow df.columns) ∧
    (dropna df.rows).Sublist df.rows := by
  obtain rfl := load_ok_eq df p out hok
  exact ⟨rfl, List.filter_sublist df.rows⟩

/-- C10 witness: order preservation on the Naruto fixture. -/
theorem load_and_process_preserves_order_witness :
    outNaruto.outRows = (dropna dfNaruto.rows).map (deriveRow dfNaruto.columns) ∧
    (dropna dfNaruto.rows).Sublist dfNaruto.rows :=
  load_and_process_preserves_order dfNaruto "anime_updated.csv" outNaruto rfl

/-! ## Claim theorems: recommender and pipeline driver -/

/-- C4: `get_recommendations` retrieves the documents for the query, joins
them into a context, formats the prompt with context and question, invokes
the LLM on exactly that one prompt, and returns the response's `content`. -/
theorem get_recommendations_spec (self : AnimeRecommender) (query : String) :
    (self.get_recommendations query).returned =
      (self.llm.invoke
        (self.prompt.format (joinContext (self.retriever query)) query)).content ∧
    (self.get_recommendations query).llmCalls =
      [self.prompt.format (joinContext (self.retriever query)) query] ∧
    (self.get_recommendations query).llmCalls.length = 1 :=
  ⟨rfl, rfl, rfl⟩

/-- C5: the context assembled before prompt formatting is the retrieved
documents' text joined with single newline separators; on documents
`["doc A", "doc B"]` it is `"doc A\ndoc B"`. -/
theorem get_recommendations_context_join (self : AnimeRecommender)
    (query : String) (docs : List Document)
    (hdocs : self.retriever query = docs) :
    (self.get_recommendations query).llmCalls =
      [self.prompt.format
        (String.intercalate "\n" (docs.map Document.page_content)) query] ∧
    joinContext [⟨"doc A"⟩, ⟨"doc B"⟩] = "doc A\ndoc B" := by
  constructor
  · simp only [AnimeRecommender.get_recommendations, joinContext, hdocs]
  · rfl

/-- A concrete stand-in recommender: echo LLM, retriever returning the two
example documents. -/
def recExample : AnimeRecommender :=
  AnimeRecommender.mk_init (fun _ => [⟨"doc A"⟩, ⟨"doc B"⟩]) "key"
    "llama-3.1-8b-instant" (fun s => ⟨s⟩) ⟨"P: ", " Q: ", ""⟩

/-- C5 witness: with the stand-in retriever the single LLM call carries the
newline-joined context. -/
theorem get_recommendations_context_join_witness :
    (recExample.get_recommendations "action anime").llmCalls =
      [recExample.prompt.format
        (String.intercalate "\n"
          (([⟨"doc A"⟩, ⟨"doc B"⟩] : List Document).map Document.page_content))
        "action anime"] ∧
    joinContext [⟨"doc A"⟩, ⟨"doc B"⟩] = "doc A\ndoc B" :=
  get_recommendations_context_join recExample "action anime"
    [⟨"doc A"⟩, ⟨"doc B"⟩] rfl

/-- C6: whenever data loading or vector-store building fails, the driver
logs the failure, wraps the original exception in `CustomException` with
the fixed message and the original cause, and re-raises; every error the
driver emits is so wrapped. -/
theorem pipelineMain_wraps_errors (d : PipelineDeps) (e : String)
    (hfail : d.loadAndProcess = .error e ∨
      ∃ path, d.loadAndProcess = .ok path ∧
        d.buildVectorStore path = .error e) :
    (pipelineMain d).2 = .error ⟨"Error during pipeline initialization", e⟩ ∧
    ("failed to execute pipeline " ++ e) ∈ (pipelineMain d).1 ∧
    (∀ ex, (pipelineMain d).2 = .error ex →
      ex.message = "Error during pipeline initialization") := by
  rcases hfail with h | ⟨path, h1, h2⟩
  · simp [pipelineMain, h]
  · simp [pipelineMain, h1, h2]

/-- C6 witness: a loader failure `"boom"` is wrapped, with its cause kept
and a failure log line emitted. -/
theorem pipelineMain_wraps_errors_witness :
    (pipelineMain ⟨.error "boom", fun _ => .ok ()⟩).2 =
      .error ⟨"Error during pipeline initialization", "boom"⟩ ∧
    ("failed to execute pipeline " ++ "boom") ∈
      (pipelineMain ⟨.error "boom", fun _ => .ok ()⟩).1 ∧
    (∀ ex, (pipelineMain ⟨.error "boom", fun _ => .ok ()⟩).2 = .error ex →
      ex.message = "Error during pipeline initialization") :=
  pipelineMain_wraps_errors ⟨.error "boom", fun _ => .ok ()⟩ "boom" (.inl rfl)

/-- C9: the recommender constructs its `ChatGroq` client with sampling
temperature 0, and `get_recommendations` is deterministic: two recommenders
with the same model behaviour and prompt template that retrieve the same
documents for a query return identical text. -/
theorem recommender_temperature_zero (retriever : String → List Document)
    (api_key model_name : String) (behaviour : String → LLMResponse)
    (prompt : PromptTemplate) :
    (AnimeRecommender.mk_init retriever api_key model_name behaviour
        prompt).llm.temperature = 0 ∧
    ∀ (r₁ r₂ : AnimeRecommender) (q : String),
      r₁.retriever q = r₂.retriever q → r₁.llm.invoke = r₂.llm.invoke →
      r₁.prompt = r₂.prompt →
      (r₁.get_recommendations q).returned =
        (r₂.get_recommendations q).returned := by
  refine ⟨rfl, ?_⟩
  intro r₁ r₂ q hret hllm hp
  simp only [AnimeRecommender.get_recommendations, hret, hllm, hp]

/-- C9 witness: the stand-in recommender has temperature 0 and is
self-deterministic. -/
theorem recommender_temperature_zero_witness :
    recExample.llm.temperature = 0 ∧
    (recExample.get_recommendations "q").returned =
      (recExample.get_recommendations "q").returned :=
  ⟨(recommender_temperature_zero (fun _ => [⟨"doc A"⟩, ⟨"doc B"⟩]) "key"
      "llama-3.1-8b-instant" (fun s => ⟨s⟩) ⟨"P: ", " Q: ", ""⟩).1,
   (recommender_temperature_zero (fun _ => [⟨"doc A"⟩, ⟨"doc B"⟩]) "key"
      "llama-3.1-8b-instant" (fun s => ⟨s⟩) ⟨"P: ", " Q: ", ""⟩).2
     recExample recExample "q" rfl rfl rfl⟩

end AnimeRec
